import Mathlib

/-!
Verification of the X-Skynet Python SDK (packages/sdk-py/xskynet).

The development shallowly embeds the SDK's data models (models.py) and the
client's pure request/response logic (client.py) over a JSON value type.
Python dicts are association lists with unique keys; Python `None` is
`Json.null`; exceptions are modelled with `Except String`.
-/

/-- JSON values, the payload type of every API exchange. -/
inductive Json where
  | null : Json
  | bool (b : Bool) : Json
  | num (n : Int) : Json
  | str (s : String) : Json
  | arr (xs : List Json) : Json
  | obj (kvs : List (String × Json)) : Json

/-- A Python dict with string keys, as received from `resp.json()`. -/
abbrev Dict := List (String × Json)

/-- Key lookup in a dict (Python `key in d` / `d[key]` presence side). -/
def lookupJ : Dict → String → Option Json
  | [], _ => none
  | (k, v) :: rest, key => if k = key then some v else lookupJ rest key

/-- Python `d.get(key, default)`: the default is used only when the key is absent. -/
def pyGetD (d : Dict) (key : String) (default : Json) : Json :=
  (lookupJ d key).getD default

/-- Python `d.get(key)`: absent keys give `None`. -/
def pyGet (d : Dict) (key : String) : Json :=
  (lookupJ d key).getD Json.null

/-- Python truthiness of a JSON value (`bool(v)`). -/
def truthy : Json → Bool
  | .null => false
  | .bool b => b
  | .num n => n != 0
  | .str s => s != ""
  | .arr xs => !xs.isEmpty
  | .obj kvs => !kvs.isEmpty

/-- Python `a or b`. -/
def pyOr (a b : Json) : Json :=
  if truthy a then a else b

/-- Python iteration `for item in v`: lists yield elements, strings yield
one-character strings, dicts yield their keys; other values raise TypeError. -/
def pyIter : Json → Except String (List Json)
  | .arr xs => .ok xs
  | .str s => .ok (s.data.map (fun c => .str (String.mk [c])))
  | .obj kvs => .ok (kvs.map (fun kv => .str kv.1))
  | _ => .error "TypeError: object is not iterable"

/-- A Python list comprehension `[f(x) for x in xs]` over a fallible `f`:
the first element that raises aborts the whole comprehension. -/
def mapME {α : Type} (f : Json → Except String α) : List Json → Except String (List α)
  | [] => .ok []
  | x :: xs =>
    match f x with
    | .error e => .error e
    | .ok y =>
      match mapME f xs with
      | .error e => .error e
      | .ok ys => .ok (y :: ys)

/-! ## models.py -/

/-- `Agent` (models.py): a registered X-Skynet agent. -/
structure Agent where
  id : Json
  name : Json
  status : Json
  role : Json
  model : Json
  last_heartbeat : Json
  metadata : Dict

/-- The key set excluded from `Agent.metadata` in `Agent.from_dict`. -/
def agentKnownKeys : List String :=
  ["id", "name", "status", "role", "model", "last_heartbeat", "lastHeartbeat"]

/-- The record built by `Agent.from_dict` once `data["id"]` has resolved. -/
def Agent.build (data : Dict) (idv : Json) : Agent :=
  { id := idv
  , name := pyGetD data "name" idv
  , status := pyGetD data "status" (.str "unknown")
  , role := pyGetD data "role" (.str "")
  , model := pyGetD data "model" (.str "")
  , last_heartbeat := pyOr (pyGet data "last_heartbeat") (pyGet data "lastHeartbeat")
  , metadata := data.filter (fun kv => !agentKnownKeys.contains kv.1) }

/-- `Agent.from_dict` (models.py): `data["id"]` raises KeyError when "id" is
absent (it is also dereferenced eagerly as the default for "name"). -/
def Agent.from_dict (data : Dict) : Except String Agent :=
  match lookupJ data "id" with
  | none => .error "KeyError: id"
  | some idv => .ok (Agent.build data idv)

/-- `Agent.from_dict` on an arbitrary JSON element: a non-dict raises
(TypeError on `data["id"]`). -/
def Agent.fromJson : Json → Except String Agent
  | .obj kvs => Agent.from_dict kvs
  | _ => .error "TypeError: element is not a mapping"

/-- `ProposalStep` (models.py): a single step within a Proposal. -/
structure ProposalStep where
  title : Json
  assigned_to : Json
  prompt : Json
  status : Json
  result : Json

/-- `ProposalStep.to_dict` (models.py): the narrow wire shape. -/
def ProposalStep.to_dict (s : ProposalStep) : Dict :=
  [("title", s.title), ("assigned_to", s.assigned_to), ("prompt", s.prompt)]

/-- `ProposalStep.from_dict` (models.py): total on dicts. -/
def ProposalStep.from_dict (data : Dict) : ProposalStep :=
  { title := pyGetD data "title" (.str "")
  , assigned_to := pyGetD data "assigned_to" (pyGetD data "assignedTo" (.str ""))
  , prompt := pyGetD data "prompt" (.str "")
  , status := pyGetD data "status" (.str "pending")
  , result := pyGet data "result" }

/-- `ProposalStep.from_dict` on an arbitrary JSON element: a non-dict raises
(AttributeError on `.get`). -/
def ProposalStep.fromJson : Json → Except String ProposalStep
  | .obj kvs => .ok (ProposalStep.from_dict kvs)
  | _ => .error "AttributeError: element has no attribute get"

/-- `Proposal` (models.py): an orchestrated multi-step task. -/
structure Proposal where
  id : Json
  title : Json
  description : Json
  proposed_by : Json
  priority : Json
  status : Json
  steps : List ProposalStep
  created_at : Json
  updated_at : Json
  metadata : Dict

/-- The key set excluded from `Proposal.metadata` in `Proposal.from_dict`. -/
def proposalKnownKeys : List String :=
  ["id", "title", "description", "proposed_by", "proposedBy",
   "priority", "status", "steps", "created_at", "createdAt",
   "updated_at", "updatedAt"]

/-- The record built by `Proposal.from_dict` once the step list is parsed. -/
def Proposal.build (data : Dict) (steps : List ProposalStep) : Proposal :=
  { id := pyGetD data "id" (.str "")
  , title := pyGetD data "title" (.str "")
  , description := pyGetD data "description" (.str "")
  , proposed_by := pyGetD data "proposed_by" (pyGetD data "proposedBy" (.str ""))
  , priority := pyGetD data "priority" (.str "medium")
  , status := pyGetD data "status" (.str "pending")
  , steps := steps
  , created_at := pyOr (pyGet data "created_at") (pyGet data "createdAt")
  , updated_at := pyOr (pyGet data "updated_at") (pyGet data "updatedAt")
  , metadata := data.filter (fun kv => !proposalKnownKeys.contains kv.1) }

/-- `Proposal.from_dict` (models.py): `raw_steps = data.get("steps") or []`,
then each element goes through `ProposalStep.from_dict`.  Iterating a truthy
non-list value raises (TypeError, or AttributeError inside the nested
constructor); all such failures are modelled as errors. -/
def Proposal.from_dict (data : Dict) : Except String Proposal :=
  match pyOr (pyGet data "steps") (Json.arr []) with
  | .arr xs => (mapME ProposalStep.fromJson xs).map (Proposal.build data)
  | _ => .error "TypeError: steps is not a list of mappings"

/-- `Proposal.from_dict` on an arbitrary JSON element: a non-dict raises
(AttributeError on `.get`). -/
def Proposal.fromJson : Json → Except String Proposal
  | .obj kvs => Proposal.from_dict kvs
  | _ => .error "AttributeError: element has no attribute get"

/-- `Mission` (models.py): a collection of proposals. -/
structure Mission where
  id : Json
  title : Json
  description : Json
  status : Json
  proposals : List Proposal
  created_at : Json
  metadata : Dict

/-- The key set excluded from `Mission.metadata` in `Mission.from_dict`. -/
def missionKnownKeys : List String :=
  ["id", "title", "description", "status", "proposals", "created_at", "createdAt"]

/-- The record built by `Mission.from_dict` once the proposal list is parsed. -/
def Mission.build (data : Dict) (proposals : List Proposal) : Mission :=
  { id := pyGetD data "id" (.str "")
  , title := pyGetD data "title" (.str "")
  , description := pyGetD data "description" (.str "")
  , status := pyGetD data "status" (.str "active")
  , proposals := proposals
  , created_at := pyOr (pyGet data "created_at") (pyGet data "createdAt")
  , metadata := data.filter (fun kv => !missionKnownKeys.contains kv.1) }

/-- `Mission.from_dict` (models.py): `raw_proposals = data.get("proposals") or []`,
then each element goes through `Proposal.from_dict`. -/
def Mission.from_dict (data : Dict) : Except String Mission :=
  match pyOr (pyGet data "proposals") (Json.arr []) with
  | .arr xs => (mapME Proposal.fromJson xs).map (Mission.build data)
  | _ => .error "TypeError: proposals is not a list of mappings"

/-- `Mission.from_dict` on an arbitrary JSON element. -/
def Mission.fromJson : Json → Except String Mission
  | .obj kvs => Mission.from_dict kvs
  | _ => .error "AttributeError: element has no attribute get"

/-! ## client.py -/

def _DEFAULT_TIMEOUT : Nat := 30

def _DEFAULT_RETRIES : Nat := 3

/-- Python `s.rstrip("/")`: removes every trailing slash. -/
def pyRstripSlashes (s : String) : String :=
  String.mk (s.data.reverse.dropWhile (fun c => c == '/')).reverse

/-- Python `s.lstrip("/")`: removes every leading slash. -/
def pyLstripSlashes (s : String) : String :=
  String.mk (s.data.dropWhile (fun c => c == '/'))

/-- `XSkynetAPIError` (client.py): status code, raw body, and the rendered
message `f"API error (status_code): (response_body[:200])"`. -/
structure XSkynetAPIError where
  status_code : Nat
  response_body : String
  message : String
deriving DecidableEq

/-- The `XSkynetAPIError.__init__` constructor: the stored `response_body` is
the full text; only `message` truncates it to 200 characters. -/
def XSkynetAPIError.make (status_code : Nat) (response_body : String) : XSkynetAPIError :=
  { status_code := status_code
  , response_body := response_body
  , message := "API error " ++ toString status_code ++ ": " ++ response_body.take 200 }

/-- The failures `_request` can signal: an `XSkynetAPIError`, or the
JSONDecodeError raised by `resp.json()` on an unparsable body. -/
inductive RequestError where
  | api (e : XSkynetAPIError)
  | jsonDecode
deriving DecidableEq

/-- An HTTP response as seen by `_request`: numeric status, raw text
(`resp.text`, empty iff `resp.content` is empty), and the parsed JSON body
(`none` models a body `resp.json()` fails to parse). -/
structure HttpResponse where
  status_code : Nat
  text : String
  jsonBody : Option Json

/-- `requests.Response.ok`: true unless `raise_for_status` would raise,
i.e. unless the status code is in [400, 600). -/
def HttpResponse.ok (r : HttpResponse) : Bool :=
  !(400 ≤ r.status_code && r.status_code < 600)

/-- The stored configuration of `XSkynetClient.__init__`. -/
structure XSkynetClient where
  base_url : String
  api_key : String
  timeout : Nat
  max_retries : Nat

/-- `XSkynetClient.__init__` (client.py): `self.base_url = base_url.rstrip("/")`. -/
def XSkynetClient.init (base_url api_key : String) (timeout max_retries : Nat) : XSkynetClient :=
  { base_url := pyRstripSlashes base_url
  , api_key := api_key
  , timeout := timeout
  , max_retries := max_retries }

/-- `XSkynetClient._url` (client.py): `f"(self.base_url)/(path.lstrip('/'))"`. -/
def XSkynetClient._url (c : XSkynetClient) (path : String) : String :=
  c.base_url ++ "/" ++ pyLstripSlashes path

/-- The response-handling logic of `XSkynetClient._request` (client.py):
raise `XSkynetAPIError(resp.status_code, resp.text)` when `not resp.ok`;
return `None` when the status is 204 or the body is empty; otherwise return
`resp.json()`. -/
def XSkynetClient._request (resp : HttpResponse) : Except RequestError (Option Json) :=
  if !resp.ok then
    .error (.api (XSkynetAPIError.make resp.status_code resp.text))
  else if resp.status_code == 204 || resp.text == "" then
    .ok none
  else
    match resp.jsonBody with
    | some j => .ok (some j)
    | none => .error .jsonDecode

/-- The shared body-shape probe of `list_agents` / `list_proposals` /
`list_missions`: `data.get(entityKey, data.get("data", []))` when the body is
a dict, the body itself when it is a list, `[]` otherwise. -/
def extract_raw (data : Option Json) (entityKey : String) : Json :=
  match data with
  | some (.obj kvs) => pyGetD kvs entityKey (pyGetD kvs "data" (.arr []))
  | some (.arr xs) => .arr xs
  | _ => .arr []

/-- The post-processing of `list_agents` (client.py) applied to the value
returned by `_request`: `[Agent.from_dict(item) for item in raw_agents]`. -/
def list_agents_post (data : Option Json) : Except String (List Agent) :=
  match pyIter (extract_raw data "agents") with
  | .ok items => mapME Agent.fromJson items
  | .error e => .error e

/-- The post-processing of `list_proposals` (client.py). -/
def list_proposals_post (data : Option Json) : Except String (List Proposal) :=
  match pyIter (extract_raw data "proposals") with
  | .ok items => mapME Proposal.fromJson items
  | .error e => .error e

/-- The post-processing of `list_missions` (client.py). -/
def list_missions_post (data : Option Json) : Except String (List Mission) :=
  match pyIter (extract_raw data "missions") with
  | .ok items => mapME Mission.fromJson items
  | .error e => .error e

/-- An element of the `steps` argument of `create_proposal`: either a
`ProposalStep` or a raw mapping. -/
inductive StepInput where
  | step (s : ProposalStep)
  | raw (d : Dict)

/-- The per-element serialization inside `create_proposal` (client.py):
`step.to_dict()` for a `ProposalStep`, `dict(step)` — a shallow copy — for a
raw mapping. -/
def serialiseStep : StepInput → Dict
  | .step s => s.to_dict
  | .raw d => d

/-- The `serialised_steps` loop of `create_proposal`: `for step in steps or []`. -/
def create_proposal_steps (steps : Option (List StepInput)) : List Dict :=
  match steps with
  | none => []
  | some l => l.map serialiseStep

/-- The outgoing `payload` dict built by `create_proposal` (client.py). -/
def create_proposal_payload (title description proposed_by priority : Json)
    (steps : Option (List StepInput)) : Dict :=
  [("title", title), ("description", description), ("proposed_by", proposed_by),
   ("priority", priority),
   ("steps", Json.arr ((create_proposal_steps steps).map Json.obj))]

/-! ## Definitions written from the spec's words, for comparison -/

/-- Modelled from the spec: "trailing slash stripped exactly once" (§4.2
construction contract) — removes one trailing slash when present. -/
def specStripOneTrailingSlash (s : String) : String :=
  match s.data.getLast? with
  | some '/' => String.mk s.data.dropLast
  | _ => s

/-- Modelled from the spec: "stripping any single leading slash on the path"
(§4.2 path construction) — removes one leading slash when present. -/
def specStripOneLeadingSlash (s : String) : String :=
  match s.data with
  | '/' :: rest => String.mk rest
  | _ => s

/-- `e.isOk` for `Except`, used to state success/failure claims. -/
def exceptOk {ε α : Type} : Except ε α → Bool
  | .ok _ => true
  | .error _ => false

/-- Well-formedness of a dict's "steps" value: if present and truthy it is an
array of mappings. Exactly the inputs on which the step comprehension of
`Proposal.from_dict` cannot raise. -/
def stepsWF (d : Dict) : Prop :=
  ∀ v, lookupJ d "steps" = some v → truthy v = true →
    ∃ xs : List Json, v = Json.arr xs ∧ ∀ x ∈ xs, ∃ kvs : Dict, x = Json.obj kvs

/-- Well-formedness of a dict's "proposals" value: if present and truthy it is
an array of mappings whose own "steps" values are well-formed. -/
def proposalsWF (d : Dict) : Prop :=
  ∀ v, lookupJ d "proposals" = some v → truthy v = true →
    ∃ xs : List Json, v = Json.arr xs ∧ ∀ x ∈ xs, ∃ kvs : Dict, x = Json.obj kvs ∧ stepsWF kvs

/-- A raw-mapping step carrying the server-only key "status", used to refute C3. -/
def c3RawStep : Dict :=
  [("title", Json.str "S1"), ("assigned_to", Json.str "scout"),
   ("prompt", Json.str "Go"), ("status", Json.str "done")]

/-- Extracts the Agent from a successful parse (fallback record otherwise). -/
def agentOf (e : Except String Agent) : Agent :=
  match e with
  | .ok a => a
  | .error _ => Agent.build [] Json.null

/-- Extracts the Proposal from a successful parse (fallback record otherwise). -/
def proposalOf (e : Except String Proposal) : Proposal :=
  match e with
  | .ok p => p
  | .error _ => Proposal.build [] []

/-- Extracts the Mission from a successful parse (fallback record otherwise). -/
def missionOf (e : Except String Mission) : Mission :=
  match e with
  | .ok m => m
  | .error _ => Mission.build [] []

/-- The server payload refuting C2: both naming conventions present with
different values, and the snake_case one falsy. -/
def c2AgentDict : Dict :=
  [("id", Json.str "a"), ("last_heartbeat", Json.str ""), ("lastHeartbeat", Json.str "x")]

/-! ## Helper lemmas -/

theorem pyGet_some {d : Dict} {k : String} {v : Json} (h : lookupJ d k = some v) :
    pyGet d k = v := by
  simp [pyGet, h]

theorem pyGet_none {d : Dict} {k : String} (h : lookupJ d k = none) :
    pyGet d k = Json.null := by
  simp [pyGet, h]

theorem pyGetD_some {d : Dict} {k : String} {v dflt : Json} (h : lookupJ d k = some v) :
    pyGetD d k dflt = v := by
  simp [pyGetD, h]

theorem pyOr_truthy {a b : Json} (h : truthy a = true) : pyOr a b = a := by
  simp [pyOr, h]

theorem pyOr_falsy {a b : Json} (h : truthy a = false) : pyOr a b = b := by
  simp [pyOr, h]

theorem head?_dropWhile_false (p : Char → Bool) (l : List Char) (c : Char)
    (h : (l.dropWhile p).head? = some c) : p c = false := by
  induction l with
  | nil => simp [List.dropWhile] at h
  | cons x xs ih =>
    by_cases hp : p x
    · rw [List.dropWhile_cons, if_pos hp] at h
      exact ih h
    · rw [List.dropWhile_cons, if_neg hp] at h
      simp only [List.head?_cons, Option.some.injEq] at h
      subst h
      exact Bool.eq_false_iff.mpr hp

theorem takeWhile_slash_replicate (l : List Char) :
    l.takeWhile (fun c => c == '/')
      = List.replicate (l.takeWhile (fun c => c == '/')).length '/' := by
  apply List.eq_replicate_of_mem
  intro b hb
  have hp := List.mem_takeWhile_imp hb
  simpa using hp

theorem pyRstripSlashes_no_trailing (s : String) :
    (pyRstripSlashes s).data.getLast? ≠ some '/' := by
  intro h
  have h' : ((s.data.reverse.dropWhile (fun c => c == '/')).reverse).getLast? = some '/' := h
  rw [List.getLast?_reverse] at h'
  have := head?_dropWhile_false (fun c => c == '/') s.data.reverse '/' h'
  simp at this

theorem pyRstripSlashes_decomp (s : String) :
    ∃ n : Nat, s.data = (pyRstripSlashes s).data ++ List.replicate n '/' := by
  refine ⟨(s.data.reverse.takeWhile (fun c => c == '/')).length, ?_⟩
  conv_lhs => rw [← List.reverse_reverse s.data,
    ← List.takeWhile_append_dropWhile (fun c => c == '/') s.data.reverse]
  rw [List.reverse_append]
  have hrepl := takeWhile_slash_replicate s.data.reverse
  rw [hrepl, List.reverse_replicate, List.length_replicate]
  rfl

theorem pyLstripSlashes_no_leading (s : String) :
    (pyLstripSlashes s).data.head? ≠ some '/' := by
  intro h
  have := head?_dropWhile_false (fun c => c == '/') s.data '/' h
  simp at this

theorem pyLstripSlashes_decomp (s : String) :
    ∃ n : Nat, s.data = List.replicate n '/' ++ (pyLstripSlashes s).data := by
  refine ⟨(s.data.takeWhile (fun c => c == '/')).length, ?_⟩
  conv_lhs => rw [← List.takeWhile_append_dropWhile (fun c => c == '/') s.data]
  have hrepl := takeWhile_slash_replicate s.data
  rw [hrepl, List.length_replicate]
  rfl

theorem agent_ok_build {d : Dict} {a : Agent} (h : Agent.from_dict d = .ok a) :
    ∃ idv, lookupJ d "id" = some idv ∧ a = Agent.build d idv := by
  unfold Agent.from_dict at h
  cases hid : lookupJ d "id" with
  | none => rw [hid] at h; exact absurd h (by simp)
  | some idv =>
    rw [hid] at h
    simp only [Except.ok.injEq] at h
    exact ⟨idv, rfl, h.symm⟩

theorem proposal_ok_build {d : Dict} {p : Proposal} (h : Proposal.from_dict d = .ok p) :
    p = Proposal.build d p.steps := by
  unfold Proposal.from_dict at h
  split at h
  case _ xs heq =>
    cases hm : mapME ProposalStep.fromJson xs with
    | ok l =>
      rw [hm] at h
      simp only [Except.map, Except.ok.injEq] at h
      subst h
      rfl
    | error e => rw [hm] at h; exact absurd h (by simp [Except.map])
  case _ => exact absurd h (by simp)

theorem mission_ok_build {d : Dict} {m : Mission} (h : Mission.from_dict d = .ok m) :
    m = Mission.build d m.proposals := by
  unfold Mission.from_dict at h
  split at h
  case _ xs heq =>
    cases hm : mapME Proposal.fromJson xs with
    | ok l =>
      rw [hm] at h
      simp only [Except.map, Except.ok.injEq] at h
      subst h
      rfl
    | error e => rw [hm] at h; exact absurd h (by simp [Except.map])
  case _ => exact absurd h (by simp)

theorem Proposal.steps_empty {d : Dict} {p : Proposal}
    (hl : pyGet d "steps" = Json.null) (h : Proposal.from_dict d = .ok p) :
    p.steps = [] := by
  unfold Proposal.from_dict at h
  rw [hl] at h
  have h' : Except.ok (Proposal.build d []) = Except.ok p := h
  simp only [Except.ok.injEq] at h'
  subst h'
  exact rfl

theorem Proposal.steps_of_arr {d : Dict} {p : Proposal} {xs : List Json}
    (hl : lookupJ d "steps" = some (Json.arr xs))
    (h : Proposal.from_dict d = .ok p) :
    mapME ProposalStep.fromJson xs = .ok p.steps := by
  unfold Proposal.from_dict at h
  rw [pyGet_some hl] at h
  cases xs with
  | nil =>
    have h' : Except.ok (Proposal.build d []) = Except.ok p := h
    simp only [Except.ok.injEq] at h'
    subst h'
    exact rfl
  | cons y ys =>
    rw [pyOr_truthy (by simp [truthy])] at h
    have h2 : Except.map (Proposal.build d) (mapME ProposalStep.fromJson (y :: ys))
        = Except.ok p := h
    cases hm : mapME ProposalStep.fromJson (y :: ys) with
    | ok l =>
      rw [hm] at h2
      simp only [Except.map, Except.ok.injEq] at h2
      subst h2
      exact rfl
    | error e => rw [hm] at h2; exact absurd h2 (by simp [Except.map])

theorem Mission.proposals_empty {d : Dict} {m : Mission}
    (hl : pyGet d "proposals" = Json.null) (h : Mission.from_dict d = .ok m) :
    m.proposals = [] := by
  unfold Mission.from_dict at h
  rw [hl] at h
  have h' : Except.ok (Mission.build d []) = Except.ok m := h
  simp only [Except.ok.injEq] at h'
  subst h'
  exact rfl

theorem Mission.proposals_of_arr {d : Dict} {m : Mission} {xs : List Json}
    (hl : lookupJ d "proposals" = some (Json.arr xs))
    (h : Mission.from_dict d = .ok m) :
    mapME Proposal.fromJson xs = .ok m.proposals := by
  unfold Mission.from_dict at h
  rw [pyGet_some hl] at h
  cases xs with
  | nil =>
    have h' : Except.ok (Mission.build d []) = Except.ok m := h
    simp only [Except.ok.injEq] at h'
    subst h'
    exact rfl
  | cons y ys =>
    rw [pyOr_truthy (by simp [truthy])] at h
    have h2 : Except.map (Mission.build d) (mapME Proposal.fromJson (y :: ys))
        = Except.ok m := h
    cases hm : mapME Proposal.fromJson (y :: ys) with
    | ok l =>
      rw [hm] at h2
      simp only [Except.map, Except.ok.injEq] at h2
      subst h2
      exact rfl
    | error e => rw [hm] at h2; exact absurd h2 (by simp [Except.map])

theorem proposal_steps_arr_eval (d : Dict) (xs : List Json)
    (hs : pyOr (pyGet d "steps") (Json.arr []) = Json.arr xs) :
    Proposal.from_dict d = (mapME ProposalStep.fromJson xs).map (Proposal.build d) := by
  unfold Proposal.from_dict
  rw [hs]

theorem mission_proposals_arr_eval (d : Dict) (xs : List Json)
    (hs : pyOr (pyGet d "proposals") (Json.arr []) = Json.arr xs) :
    Mission.from_dict d = (mapME Proposal.fromJson xs).map (Mission.build d) := by
  unfold Mission.from_dict
  rw [hs]

theorem mapME_steps_ok (xs : List Json)
    (hx : ∀ x ∈ xs, ∃ kvs : Dict, x = Json.obj kvs) :
    ∃ l, mapME ProposalStep.fromJson xs = .ok l := by
  induction xs with
  | nil => exact ⟨[], rfl⟩
  | cons y ys ih =>
    obtain ⟨kvs, hk⟩ := hx y (List.mem_cons_self y ys)
    obtain ⟨l, hl⟩ := ih (fun x hm => hx x (List.mem_cons_of_mem y hm))
    subst hk
    exact ⟨ProposalStep.from_dict kvs :: l, by simp [mapME, ProposalStep.fromJson, hl]⟩

theorem proposal_total_of_wf (d : Dict) (hd : stepsWF d) :
    ∃ p, Proposal.from_dict d = .ok p := by
  cases hl : lookupJ d "steps" with
  | none =>
    have hs : pyOr (pyGet d "steps") (Json.arr []) = Json.arr [] := by
      rw [pyGet_none hl]
      exact pyOr_falsy rfl
    exact ⟨Proposal.build d [], by rw [proposal_steps_arr_eval d [] hs]; exact rfl⟩
  | some v =>
    cases ht : truthy v with
    | false =>
      have hs : pyOr (pyGet d "steps") (Json.arr []) = Json.arr [] := by
        rw [pyGet_some hl]
        exact pyOr_falsy ht
      exact ⟨Proposal.build d [], by rw [proposal_steps_arr_eval d [] hs]; exact rfl⟩
    | true =>
      obtain ⟨xs, hv, hx⟩ := hd v hl ht
      subst hv
      have hs : pyOr (pyGet d "steps") (Json.arr []) = Json.arr xs := by
        rw [pyGet_some hl]
        exact pyOr_truthy ht
      obtain ⟨l, hm⟩ := mapME_steps_ok xs hx
      refine ⟨Proposal.build d l, ?_⟩
      rw [proposal_steps_arr_eval d xs hs, hm]
      exact rfl

theorem mapME_proposals_ok (xs : List Json)
    (hx : ∀ x ∈ xs, ∃ kvs : Dict, x = Json.obj kvs ∧ stepsWF kvs) :
    ∃ l, mapME Proposal.fromJson xs = .ok l := by
  induction xs with
  | nil => exact ⟨[], rfl⟩
  | cons y ys ih =>
    obtain ⟨kvs, hk, hwf⟩ := hx y (List.mem_cons_self y ys)
    obtain ⟨l, hl⟩ := ih (fun x hm => hx x (List.mem_cons_of_mem y hm))
    obtain ⟨p, hp⟩ := proposal_total_of_wf kvs hwf
    subst hk
    exact ⟨p :: l, by simp [mapME, Proposal.fromJson, hp, hl]⟩

theorem mission_total_of_wf (d : Dict) (hd : proposalsWF d) :
    ∃ m, Mission.from_dict d = .ok m := by
  cases hl : lookupJ d "proposals" with
  | none =>
    have hs : pyOr (pyGet d "proposals") (Json.arr []) = Json.arr [] := by
      rw [pyGet_none hl]
      exact pyOr_falsy rfl
    exact ⟨Mission.build d [], by rw [mission_proposals_arr_eval d [] hs]; exact rfl⟩
  | some v =>
    cases ht : truthy v with
    | false =>
      have hs : pyOr (pyGet d "proposals") (Json.arr []) = Json.arr [] := by
        rw [pyGet_some hl]
        exact pyOr_falsy ht
      exact ⟨Mission.build d [], by rw [mission_proposals_arr_eval d [] hs]; exact rfl⟩
    | true =>
      obtain ⟨xs, hv, hx⟩ := hd v hl ht
      subst hv
      have hs : pyOr (pyGet d "proposals") (Json.arr []) = Json.arr xs := by
        rw [pyGet_some hl]
        exact pyOr_truthy ht
      obtain ⟨l, hm⟩ := mapME_proposals_ok xs hx
      refine ⟨Mission.build d l, ?_⟩
      rw [mission_proposals_arr_eval d xs hs, hm]
      exact rfl

theorem Agent.from_dict_isOk (d : Dict) :
    exceptOk (Agent.from_dict d) = true ↔ (lookupJ d "id").isSome = true := by
  unfold Agent.from_dict
  cases h : lookupJ d "id" <;> simp [exceptOk]

/-! ## Claim theorems -/

set_option maxRecDepth 4000 in
/-- C1: the claim says every status outside [200,300) fails with the API error.
The code raises on `not resp.ok`, and `requests.Response.ok` is "status < 400"
(more precisely: `raise_for_status` raises only for [400,600)), so a 304
response with an empty body succeeds with the no-content result instead of
raising — contradicting the code's own `XSkynetAPIError` docstring ("Raised
when the API returns a non-2xx status code") and the test suite's mock, which
sets `ok = 200 <= status_code < 300`. This theorem evaluates the embedding at
the failing input 304, and records the behaviour at 4xx that the claim
describes correctly, including that the stored `response_body` is the full
text while only `message` truncates to 200 characters. -/
theorem C1_request_status_divergence :
    ¬ (200 ≤ 304 ∧ 304 < 300)
    ∧ XSkynetClient._request { status_code := 304, text := "", jsonBody := none }
        = Except.ok none
    ∧ XSkynetClient._request { status_code := 403, text := "forbidden", jsonBody := none }
        = Except.error (RequestError.api (XSkynetAPIError.make 403 "forbidden"))
    ∧ (XSkynetAPIError.make 403 "forbidden").response_body = "forbidden"
    ∧ (XSkynetAPIError.make 403 "forbidden").message = "API error 403: forbidden" :=
  ⟨by decide, rfl, rfl, rfl, by decide⟩

/-- C3 (refuted as stated): `create_proposal` does NOT convert every step to
the narrow wire shape — a raw mapping is shallow-copied by `dict(step)`, so a
raw step with the extra key "status" keeps that key in the outgoing payload. -/
theorem C3_counterexample :
    (create_proposal_steps (some [StepInput.raw c3RawStep])).map (fun d => d.map Prod.fst)
      ≠ [["title", "assigned_to", "prompt"]] := by
  decide

/-- C3 (amended): a `ProposalStep` element is serialized to the narrow wire
shape with exactly the keys title, assigned_to, prompt; a raw-mapping element
is shallow-copied verbatim; elements keep their original order in the
payload's steps array; an absent (None) steps argument yields a present steps
field equal to the empty array. -/
theorem C3_steps_serialization :
    (∀ t desc pb pr, lookupJ (create_proposal_payload t desc pb pr none) "steps"
        = some (Json.arr []))
    ∧ (∀ t desc pb pr l, lookupJ (create_proposal_payload t desc pb pr (some l)) "steps"
        = some (Json.arr ((l.map serialiseStep).map Json.obj)))
    ∧ (∀ s : ProposalStep, (serialiseStep (StepInput.step s)).map Prod.fst
        = ["title", "assigned_to", "prompt"])
    ∧ (∀ d : Dict, serialiseStep (StepInput.raw d) = d) :=
  ⟨fun _ _ _ _ => rfl, fun _ _ _ _ _ => rfl, fun _ => rfl, fun _ => rfl⟩

/-- C4 (refuted as stated): `rstrip("/")` strips every trailing slash, not
exactly one — on "https://example.com//" the stored base URL differs from the
claim's single-strip result "https://example.com/". -/
theorem C4_counterexample :
    (XSkynetClient.init "https://example.com//" "key" _DEFAULT_TIMEOUT _DEFAULT_RETRIES).base_url
      ≠ specStripOneTrailingSlash "https://example.com//" := by
  decide

/-- C4 (amended): constructing a client strips every trailing slash from the
base URL: the stored value never ends in '/', the input is the stored value
followed by some run of slashes, the spec's example
"https://example.com/" ↦ "https://example.com" holds, and slash-free input is
stored unchanged. -/
theorem C4_base_url_strip (base_url api_key : String) (timeout max_retries : Nat) :
    ((XSkynetClient.init base_url api_key timeout max_retries).base_url).data.getLast? ≠ some '/'
    ∧ (∃ n : Nat, base_url.data
        = ((XSkynetClient.init base_url api_key timeout max_retries).base_url).data
          ++ List.replicate n '/')
    ∧ (XSkynetClient.init "https://example.com/" api_key timeout max_retries).base_url
        = "https://example.com"
    ∧ (XSkynetClient.init "https://example.com" api_key timeout max_retries).base_url
        = "https://example.com" :=
  ⟨pyRstripSlashes_no_trailing base_url, pyRstripSlashes_decomp base_url, rfl, rfl⟩

/-- C5: serializing a deserialized step yields exactly the keys title,
assigned_to, prompt, in that order, for every input dict; status and result
are never emitted. -/
theorem C5_step_roundtrip_narrow (d : Dict) :
    ((ProposalStep.from_dict d).to_dict).map Prod.fst = ["title", "assigned_to", "prompt"]
    ∧ lookupJ ((ProposalStep.from_dict d).to_dict) "status" = none
    ∧ lookupJ ((ProposalStep.from_dict d).to_dict) "result" = none :=
  ⟨rfl, rfl, rfl⟩

/-- C9 (refuted as stated): `lstrip("/")` strips every leading slash, not a
single one — on path "//agents" the resolved URL differs from the claim's
single-strip construction. -/
theorem C9_counterexample :
    (XSkynetClient.init "https://example.com" "key" _DEFAULT_TIMEOUT _DEFAULT_RETRIES)._url "//agents"
      ≠ (XSkynetClient.init "https://example.com" "key" _DEFAULT_TIMEOUT _DEFAULT_RETRIES).base_url
        ++ "/" ++ specStripOneLeadingSlash "//agents" := by
  decide

/-- C9 (amended): `_url` joins base and path as base ++ "/" ++ path with every
leading slash of the path stripped; the stripped path never starts with '/',
so the join point carries exactly one slash; the original path is a run of
slashes followed by the stripped path. -/
theorem C9_url_join (c : XSkynetClient) (path : String) :
    c._url path = c.base_url ++ "/" ++ pyLstripSlashes path
    ∧ (pyLstripSlashes path).data.head? ≠ some '/'
    ∧ (∃ n : Nat, path.data = List.replicate n '/' ++ (pyLstripSlashes path).data) :=
  ⟨rfl, pyLstripSlashes_no_leading path, pyLstripSlashes_decomp path⟩

/-- C2 (refuted as stated): with both `last_heartbeat` and `lastHeartbeat`
present and different, the snake_case value does NOT always win — the code
resolves timestamp-like fields with `get(snake) or get(camel)`, so a falsy
snake_case value (here the empty string) loses to the camelCase value. -/
theorem C2_counterexample :
    lookupJ c2AgentDict "last_heartbeat" = some (Json.str "")
    ∧ lookupJ c2AgentDict "lastHeartbeat" = some (Json.str "x")
    ∧ Json.str "" ≠ Json.str "x"
    ∧ (Agent.from_dict c2AgentDict).map Agent.last_heartbeat ≠ Except.ok (Json.str "") := by
  refine ⟨rfl, rfl, ?_, ?_⟩
  · intro h
    injection h with h'
    exact absurd h' (by decide)
  · intro h
    have hx : (Agent.from_dict c2AgentDict).map Agent.last_heartbeat
        = Except.ok (Json.str "x") := rfl
    rw [hx] at h
    injection h with h'
    injection h' with h''
    exact absurd h'' (by decide)

/-- C2 (amended): for the presence-resolved dual-named fields (`assigned_to`,
`proposed_by`) the snake_case key wins whenever it is present, and snake-only
input equals camel-only input for every value; for the `or`-resolved
timestamp fields (`last_heartbeat` on Agent, `created_at`/`updated_at` on
Proposal, `created_at` on Mission), when both keys are present the snake_case
value wins exactly when it is truthy (non-null, non-empty) and otherwise the
camelCase value is used, and snake-only input equals camel-only input for
every truthy value. -/
theorem C2_field_resolution :
    (∀ (d : Dict) (v : Json), lookupJ d "assigned_to" = some v →
        (ProposalStep.from_dict d).assigned_to = v)
    ∧ (∀ v : Json, (ProposalStep.from_dict [("assigned_to", v)]).assigned_to
        = (ProposalStep.from_dict [("assignedTo", v)]).assigned_to)
    ∧ (∀ (d : Dict) (p : Proposal) (v : Json), Proposal.from_dict d = .ok p →
        lookupJ d "proposed_by" = some v → p.proposed_by = v)
    ∧ (∀ v : Json, (proposalOf (Proposal.from_dict [("proposed_by", v)])).proposed_by
        = (proposalOf (Proposal.from_dict [("proposedBy", v)])).proposed_by)
    ∧ (∀ (d : Dict) (a : Agent) (v : Json), Agent.from_dict d = .ok a →
        lookupJ d "last_heartbeat" = some v → truthy v = true → a.last_heartbeat = v)
    ∧ (∀ (d : Dict) (a : Agent) (w : Json), Agent.from_dict d = .ok a →
        truthy (pyGet d "last_heartbeat") = false →
        lookupJ d "lastHeartbeat" = some w → a.last_heartbeat = w)
    ∧ (∀ (d : Dict) (p : Proposal) (v : Json), Proposal.from_dict d = .ok p →
        lookupJ d "created_at" = some v → truthy v = true → p.created_at = v)
    ∧ (∀ (d : Dict) (p : Proposal) (w : Json), Proposal.from_dict d = .ok p →
        truthy (pyGet d "created_at") = false →
        lookupJ d "createdAt" = some w → p.created_at = w)
    ∧ (∀ (d : Dict) (p : Proposal) (v : Json), Proposal.from_dict d = .ok p →
        lookupJ d "updated_at" = some v → truthy v = true → p.updated_at = v)
    ∧ (∀ (d : Dict) (p : Proposal) (w : Json), Proposal.from_dict d = .ok p →
        truthy (pyGet d "updated_at") = false →
        lookupJ d "updatedAt" = some w → p.updated_at = w)
    ∧ (∀ (d : Dict) (m : Mission) (v : Json), Mission.from_dict d = .ok m →
        lookupJ d "created_at" = some v → truthy v = true → m.created_at = v)
    ∧ (∀ (d : Dict) (m : Mission) (w : Json), Mission.from_dict d = .ok m →
        truthy (pyGet d "created_at") = false →
        lookupJ d "createdAt" = some w → m.created_at = w)
    ∧ (∀ v : Json, truthy v = true →
        (agentOf (Agent.from_dict [("id", Json.str "x"), ("last_heartbeat", v)])).last_heartbeat
          = (agentOf (Agent.from_dict [("id", Json.str "x"), ("lastHeartbeat", v)])).last_heartbeat)
    ∧ (∀ v : Json, truthy v = true →
        (proposalOf (Proposal.from_dict [("created_at", v)])).created_at
          = (proposalOf (Proposal.from_dict [("createdAt", v)])).created_at)
    ∧ (∀ v : Json, truthy v = true →
        (proposalOf (Proposal.from_dict [("updated_at", v)])).updated_at
          = (proposalOf (Proposal.from_dict [("updatedAt", v)])).updated_at)
    ∧ (∀ v : Json, truthy v = true →
        (missionOf (Mission.from_dict [("created_at", v)])).created_at
          = (missionOf (Mission.from_dict [("createdAt", v)])).created_at) := by
  have hnull : truthy Json.null = false := rfl
  refine ⟨?_, ?_, ?_, ?_, ?_, ?_, ?_, ?_, ?_, ?_, ?_, ?_, ?_, ?_, ?_, ?_⟩
  · intro d v hl
    show pyGetD d "assigned_to" (pyGetD d "assignedTo" (.str "")) = v
    exact pyGetD_some hl
  · intro v
    rfl
  · intro d p v hok hl
    rw [proposal_ok_build hok]
    show pyGetD d "proposed_by" (pyGetD d "proposedBy" (.str "")) = v
    exact pyGetD_some hl
  · intro v
    rfl
  · intro d a v hok hl ht
    obtain ⟨idv, hid, ha⟩ := agent_ok_build hok
    subst ha
    show pyOr (pyGet d "last_heartbeat") (pyGet d "lastHeartbeat") = v
    rw [pyGet_some hl]
    exact pyOr_truthy ht
  · intro d a w hok hf hl
    obtain ⟨idv, hid, ha⟩ := agent_ok_build hok
    subst ha
    show pyOr (pyGet d "last_heartbeat") (pyGet d "lastHeartbeat") = w
    rw [pyOr_falsy hf]
    exact pyGet_some hl
  · intro d p v hok hl ht
    rw [proposal_ok_build hok]
    show pyOr (pyGet d "created_at") (pyGet d "createdAt") = v
    rw [pyGet_some hl]
    exact pyOr_truthy ht
  · intro d p w hok hf hl
    rw [proposal_ok_build hok]
    show pyOr (pyGet d "created_at") (pyGet d "createdAt") = w
    rw [pyOr_falsy hf]
    exact pyGet_some hl
  · intro d p v hok hl ht
    rw [proposal_ok_build hok]
    show pyOr (pyGet d "updated_at") (pyGet d "updatedAt") = v
    rw [pyGet_some hl]
    exact pyOr_truthy ht
  · intro d p w hok hf hl
    rw [proposal_ok_build hok]
    show pyOr (pyGet d "updated_at") (pyGet d "updatedAt") = w
    rw [pyOr_falsy hf]
    exact pyGet_some hl
  · intro d m v hok hl ht
    rw [mission_ok_build hok]
    show pyOr (pyGet d "created_at") (pyGet d "createdAt") = v
    rw [pyGet_some hl]
    exact pyOr_truthy ht
  · intro d m w hok hf hl
    rw [mission_ok_build hok]
    show pyOr (pyGet d "created_at") (pyGet d "createdAt") = w
    rw [pyOr_falsy hf]
    exact pyGet_some hl
  · intro v ht
    show pyOr v Json.null = pyOr Json.null v
    rw [pyOr_truthy ht, pyOr_falsy hnull]
  · intro v ht
    show pyOr v Json.null = pyOr Json.null v
    rw [pyOr_truthy ht, pyOr_falsy hnull]
  · intro v ht
    show pyOr v Json.null = pyOr Json.null v
    rw [pyOr_truthy ht, pyOr_falsy hnull]
  · intro v ht
    show pyOr v Json.null = pyOr Json.null v
    rw [pyOr_truthy ht, pyOr_falsy hnull]

/-- C2 witness: the amended resolution evaluated on concrete payloads —
presence-based snake_case win for assigned_to, truthy snake_case win and
falsy-snake camelCase fallback for last_heartbeat, and the truthy-value
snake-only/camel-only agreement for Proposal.created_at. -/
theorem C2_field_resolution_witness :
    (ProposalStep.from_dict [("assigned_to", Json.str "scout"), ("assignedTo", Json.str "other")]).assigned_to
      = Json.str "scout"
    ∧ (agentOf (Agent.from_dict
        [("id", Json.str "a"), ("last_heartbeat", Json.str "t1"), ("lastHeartbeat", Json.str "t2")])).last_heartbeat
      = Json.str "t1"
    ∧ (agentOf (Agent.from_dict c2AgentDict)).last_heartbeat = Json.str "x"
    ∧ (proposalOf (Proposal.from_dict [("created_at", Json.str "t3")])).created_at
      = (proposalOf (Proposal.from_dict [("createdAt", Json.str "t3")])).created_at :=
  ⟨C2_field_resolution.1 _ _ rfl,
   C2_field_resolution.2.2.2.2.1
     [("id", Json.str "a"), ("last_heartbeat", Json.str "t1"), ("lastHeartbeat", Json.str "t2")]
     _ _ rfl rfl rfl,
   C2_field_resolution.2.2.2.2.2.1 c2AgentDict _ _ rfl rfl rfl,
   C2_field_resolution.2.2.2.2.2.2.2.2.2.2.2.2.2.1 (Json.str "t3") rfl⟩

/-- C6: in `Proposal.from_dict` and `Mission.from_dict`, an absent or null
nested collection normalizes to the empty list, and a present array is
deserialized element-by-element with the nested constructor in the received
order (`mapME` preserves order and is exactly the Python comprehension). -/
theorem C6_nested_collections :
    (∀ (d : Dict) (p : Proposal), Proposal.from_dict d = .ok p →
        (lookupJ d "steps" = none ∨ lookupJ d "steps" = some Json.null) →
        p.steps = [])
    ∧ (∀ (d : Dict) (p : Proposal) (xs : List Json), Proposal.from_dict d = .ok p →
        lookupJ d "steps" = some (Json.arr xs) →
        mapME ProposalStep.fromJson xs = .ok p.steps)
    ∧ (∀ (d : Dict) (m : Mission), Mission.from_dict d = .ok m →
        (lookupJ d "proposals" = none ∨ lookupJ d "proposals" = some Json.null) →
        m.proposals = [])
    ∧ (∀ (d : Dict) (m : Mission) (xs : List Json), Mission.from_dict d = .ok m →
        lookupJ d "proposals" = some (Json.arr xs) →
        mapME Proposal.fromJson xs = .ok m.proposals) := by
  refine ⟨?_, ?_, ?_, ?_⟩
  · intro d p h hl
    refine Proposal.steps_empty ?_ h
    cases hl with
    | inl h1 => exact pyGet_none h1
    | inr h1 => exact pyGet_some h1
  · intro d p xs h hl
    exact Proposal.steps_of_arr hl h
  · intro d m h hl
    refine Mission.proposals_empty ?_ h
    cases hl with
    | inl h1 => exact pyGet_none h1
    | inr h1 => exact pyGet_some h1
  · intro d m xs h hl
    exact Mission.proposals_of_arr hl h

/-- C6 witness: null and one-element-array collections on concrete payloads. -/
theorem C6_nested_collections_witness :
    (proposalOf (Proposal.from_dict [("steps", Json.null)])).steps = []
    ∧ mapME ProposalStep.fromJson [Json.obj [("title", Json.str "S1")]]
        = .ok (proposalOf (Proposal.from_dict
            [("steps", Json.arr [Json.obj [("title", Json.str "S1")]])])).steps
    ∧ (missionOf (Mission.from_dict [("proposals", Json.null)])).proposals = [] :=
  ⟨C6_nested_collections.1 [("steps", Json.null)] _ rfl (Or.inr rfl),
   C6_nested_collections.2.1 [("steps", Json.arr [Json.obj [("title", Json.str "S1")]])]
     _ _ rfl rfl,
   C6_nested_collections.2.2.1 [("proposals", Json.null)] _ rfl (Or.inr rfl)⟩

/-- C7: for each deserializer, a key-value pair of the input lands in the
record's metadata exactly when its key is none of that entity's named fields
under either naming convention (the enumerated exclusion lists), and the pair
is kept verbatim, value unmodified. -/
theorem C7_metadata_capture :
    (∀ (d : Dict) (a : Agent) (kv : String × Json), Agent.from_dict d = .ok a →
        (kv ∈ a.metadata ↔ kv ∈ d ∧ kv.1 ∉
          ["id", "name", "status", "role", "model", "last_heartbeat", "lastHeartbeat"]))
    ∧ (∀ (d : Dict) (p : Proposal) (kv : String × Json), Proposal.from_dict d = .ok p →
        (kv ∈ p.metadata ↔ kv ∈ d ∧ kv.1 ∉
          ["id", "title", "description", "proposed_by", "proposedBy",
           "priority", "status", "steps", "created_at", "createdAt",
           "updated_at", "updatedAt"]))
    ∧ (∀ (d : Dict) (m : Mission) (kv : String × Json), Mission.from_dict d = .ok m →
        (kv ∈ m.metadata ↔ kv ∈ d ∧ kv.1 ∉
          ["id", "title", "description", "status", "proposals", "created_at", "createdAt"])) := by
  refine ⟨?_, ?_, ?_⟩
  · intro d a kv h
    obtain ⟨idv, hid, ha⟩ := agent_ok_build h
    subst ha
    show kv ∈ d.filter (fun kv => !agentKnownKeys.contains kv.1) ↔ _
    simp [List.mem_filter, agentKnownKeys]
  · intro d p kv h
    rw [proposal_ok_build h]
    show kv ∈ d.filter (fun kv => !proposalKnownKeys.contains kv.1) ↔ _
    simp [List.mem_filter, proposalKnownKeys]
  · intro d m kv h
    rw [mission_ok_build h]
    show kv ∈ d.filter (fun kv => !missionKnownKeys.contains kv.1) ↔ _
    simp [List.mem_filter, missionKnownKeys]

/-- C7 witness: an unrecognized key round-trips into metadata on a concrete
payload, and a named-field key does not appear there. -/
theorem C7_metadata_capture_witness :
    ("powerLevel", Json.num 9001)
      ∈ (agentOf (Agent.from_dict [("id", Json.str "a"), ("powerLevel", Json.num 9001)])).metadata
    ∧ ¬ ("id", Json.str "a")
      ∈ (agentOf (Agent.from_dict [("id", Json.str "a"), ("powerLevel", Json.num 9001)])).metadata :=
  ⟨(C7_metadata_capture.1 [("id", Json.str "a"), ("powerLevel", Json.num 9001)] _ _ rfl).mpr
     ⟨by simp, by simp⟩,
   fun hmem =>
     by simpa using
       ((C7_metadata_capture.1 [("id", Json.str "a"), ("powerLevel", Json.num 9001)] _ _ rfl).mp
         hmem).2⟩

/-- C8: body-shape normalization of the list operations — on a dict body the
entity-specific key wins when present, else the "data" key, else empty; a
bare array is taken whole; the records are deserialized element-by-element in
the received order by the entity's constructor. -/
theorem C8_list_body_shapes :
    (∀ (key : String) (kvs : Dict) (v : Json), lookupJ kvs key = some v →
        extract_raw (some (Json.obj kvs)) key = v)
    ∧ (∀ (key : String) (kvs : Dict) (v : Json), lookupJ kvs key = none →
        lookupJ kvs "data" = some v → extract_raw (some (Json.obj kvs)) key = v)
    ∧ (∀ (key : String) (kvs : Dict), lookupJ kvs key = none →
        lookupJ kvs "data" = none → extract_raw (some (Json.obj kvs)) key = Json.arr [])
    ∧ (∀ (key : String) (xs : List Json), extract_raw (some (Json.arr xs)) key = Json.arr xs)
    ∧ (∀ xs : List Json, list_agents_post (some (Json.arr xs)) = mapME Agent.fromJson xs)
    ∧ (∀ xs : List Json, list_proposals_post (some (Json.arr xs)) = mapME Proposal.fromJson xs)
    ∧ (∀ xs : List Json, list_missions_post (some (Json.arr xs)) = mapME Mission.fromJson xs)
    ∧ (∀ (kvs : Dict) (xs : List Json), lookupJ kvs "agents" = some (Json.arr xs) →
        list_agents_post (some (Json.obj kvs)) = mapME Agent.fromJson xs)
    ∧ (∀ (kvs : Dict) (xs : List Json), lookupJ kvs "proposals" = some (Json.arr xs) →
        list_proposals_post (some (Json.obj kvs)) = mapME Proposal.fromJson xs)
    ∧ (∀ (kvs : Dict) (xs : List Json), lookupJ kvs "missions" = some (Json.arr xs) →
        list_missions_post (some (Json.obj kvs)) = mapME Mission.fromJson xs) := by
  refine ⟨?_, ?_, ?_, fun _ _ => rfl, fun _ => rfl, fun _ => rfl, fun _ => rfl, ?_, ?_, ?_⟩
  · intro key kvs v h
    show pyGetD kvs key (pyGetD kvs "data" (.arr [])) = v
    exact pyGetD_some h
  · intro key kvs v h1 h2
    show pyGetD kvs key (pyGetD kvs "data" (.arr [])) = v
    simp [pyGetD, h1, h2]
  · intro key kvs h1 h2
    show pyGetD kvs key (pyGetD kvs "data" (.arr [])) = Json.arr []
    simp [pyGetD, h1, h2]
  · intro kvs xs h
    unfold list_agents_post
    rw [show extract_raw (some (Json.obj kvs)) "agents" = Json.arr xs from pyGetD_some h]
    exact rfl
  · intro kvs xs h
    unfold list_proposals_post
    rw [show extract_raw (some (Json.obj kvs)) "proposals" = Json.arr xs from pyGetD_some h]
    exact rfl
  · intro kvs xs h
    unfold list_missions_post
    rw [show extract_raw (some (Json.obj kvs)) "missions" = Json.arr xs from pyGetD_some h]
    exact rfl

/-- C8 witness: the shape probe on concrete bodies. -/
theorem C8_list_body_shapes_witness :
    extract_raw (some (Json.obj [("agents", Json.arr []), ("data", Json.str "ignored")])) "agents"
      = Json.arr []
    ∧ extract_raw (some (Json.obj [("data", Json.arr [Json.null])])) "agents"
      = Json.arr [Json.null]
    ∧ extract_raw (some (Json.obj [("unrelated", Json.num 1)])) "agents" = Json.arr []
    ∧ list_agents_post (some (Json.obj [("agents", Json.arr [Json.obj [("id", Json.str "scout")]])]))
      = mapME Agent.fromJson [Json.obj [("id", Json.str "scout")]] :=
  ⟨C8_list_body_shapes.1 "agents" _ _ rfl,
   C8_list_body_shapes.2.1 "agents" _ _ rfl rfl,
   C8_list_body_shapes.2.2.1 "agents" _ rfl rfl,
   C8_list_body_shapes.2.2.2.2.2.2.2.1 _ _ rfl⟩

/-- C10 (refuted as stated): `Proposal.from_dict` does NOT succeed on every
input mapping — a truthy non-list "steps" value makes the step comprehension
raise (here: TypeError iterating the integer 5). -/
theorem C10_counterexample :
    Proposal.from_dict [("steps", Json.num 5)]
      = Except.error "TypeError: steps is not a list of mappings" := rfl

/-- C10 (amended): `Proposal.from_dict` and `Mission.from_dict` succeed on
every mapping whose nested collections, when present and truthy, are arrays
of mappings (recursively); with every key absent all fields take their
defaults (empty id/title/description; status "pending" for Proposal, "active"
for Mission); `Agent.from_dict` succeeds exactly when "id" is present. -/
theorem C10_constructor_totality :
    (Proposal.from_dict []).map (fun p => (p.id, p.title, p.description, p.status))
        = Except.ok (Json.str "", Json.str "", Json.str "", Json.str "pending")
    ∧ (Mission.from_dict []).map (fun m => (m.id, m.title, m.description, m.status))
        = Except.ok (Json.str "", Json.str "", Json.str "", Json.str "active")
    ∧ (∀ d : Dict, stepsWF d → ∃ p, Proposal.from_dict d = .ok p)
    ∧ (∀ d : Dict, proposalsWF d → ∃ m, Mission.from_dict d = .ok m)
    ∧ (∀ d : Dict, exceptOk (Agent.from_dict d) = true ↔ (lookupJ d "id").isSome = true) :=
  ⟨rfl, rfl, proposal_total_of_wf, mission_total_of_wf, Agent.from_dict_isOk⟩

/-- C10 witness: totality evaluated on concrete well-formed payloads. -/
theorem C10_constructor_totality_witness :
    (∃ p, Proposal.from_dict [("id", Json.str "p1"), ("steps", Json.arr [Json.obj []])]
        = .ok p)
    ∧ (∃ m, Mission.from_dict [("proposals", Json.arr [Json.obj []])] = .ok m)
    ∧ (exceptOk (Agent.from_dict [("id", Json.str "a")]) = true
        ↔ (lookupJ [("id", Json.str "a")] "id").isSome = true) := by
  refine ⟨C10_constructor_totality.2.2.1 _ ?_,
          C10_constructor_totality.2.2.2.1 _ ?_,
          C10_constructor_totality.2.2.2.2 _⟩
  · intro v hv ht
    have h0 : lookupJ [("id", Json.str "p1"), ("steps", Json.arr [Json.obj []])] "steps"
        = some (Json.arr [Json.obj []]) := rfl
    rw [h0] at hv
    injection hv with hv'
    subst hv'
    refine ⟨[Json.obj []], rfl, ?_⟩
    intro x hx
    simp only [List.mem_singleton] at hx
    subst hx
    exact ⟨[], rfl⟩
  · intro v hv ht
    have h0 : lookupJ [("proposals", Json.arr [Json.obj []])] "proposals"
        = some (Json.arr [Json.obj []]) := rfl
    rw [h0] at hv
    injection hv with hv'
    subst hv'
    refine ⟨[Json.obj []], rfl, ?_⟩
    intro x hx
    simp only [List.mem_singleton] at hx
    subst hx
    refine ⟨[], rfl, ?_⟩
    intro w hw
    exact absurd hw (by simp [lookupJ])
